import Mathlib

/-!
Shallow embedding of the BrandPulseAI real-time client:
the `useWebSocket` hook (bundled in `frontend/app/page.tsx`) and the
`WebSocketProvider` message handler (`frontend/contexts/websocket-context.tsx`).

The client is modelled as an explicit state machine: the React refs and
`useState` cells become fields of `ClientState`, the transport callbacks
(`onopen`, `onmessage`, `onclose`) and the public API (`connect`,
`disconnect`, `sendMessage`, `subscribeToBrand`, `unsubscribeFromBrand`)
become functions on that state, and the possible happenings of one
single-threaded event loop become an `Event` type with a `step` function.
WebSocket objects created by `new WebSocket(url)` are kept in the list
`sockets` (creation order); the browser keeps delivering events for a
socket even after `wsRef` has been repointed elsewhere, which the model
reflects by letting events address any created socket by index.

`JSON.parse` of an inbound frame is modelled by its outcome, an
`Option (WSMessage α)` (`none` = the parse threw and the `catch` block
logged it); the untyped `data: any` payload is a type parameter `α`.
`console.warn` calls are counted in `warnings`; the `onConnect` /
`onDisconnect` options that the provider passes (pure `console.log`s)
are counted in `connectCbCount` / `disconnectCbCount`.
-/

namespace BrandPulse

/-- Connection states, from `enum ConnectionStatus` in the hook. The spec
calls the `error` state `Failed`. -/
inductive ConnectionStatus where
  | connecting
  | connected
  | disconnected
  | error
  | reconnecting
  deriving DecidableEq, Repr

/-- Browser WebSocket `readyState` values; `opened` stands for `OPEN`. -/
inductive ReadyState where
  | connecting
  | opened
  | closing
  | closed
  deriving DecidableEq, Repr

/-- One `WebSocket` object. `pendingCloseCode` records the code passed to
`close(code)`; the eventual close event then carries that code. -/
structure Socket where
  readyState : ReadyState := .connecting
  pendingCloseCode : Option Nat := none
  deriving DecidableEq, Repr

/-- Wire envelope `WebSocketMessage` from the hook: a flat object with a
required `type` and optional fields.  The untyped `data: any` payload is
the type parameter `α`. -/
structure WSMessage (α : Type) where
  type : String
  data : Option α := none
  message : Option String := none
  timestamp : Option String := none
  status : Option String := none
  brand_id : Option Nat := none
  deriving DecidableEq, Repr

/-- Outbound message objects passed to `sendMessage` in the source
(`subscribe` / `unsubscribe` with a `brand_id`, and the heartbeat
`ping`). -/
structure OutMessage where
  type : String
  brand_id : Option Nat := none
  deriving DecidableEq, Repr

/-- State owned by `WebSocketProvider` in websocket-context.tsx:
`realtimeMentions`, `dashboardStats` and `lastUpdate`.  `lastUpdate` is
set from `new Date().toISOString()`; the clock value is supplied to the
handler as a `Nat`. -/
structure StoreState (α : Type) where
  realtimeMentions : List α := []
  dashboardStats : Option α := none
  lastUpdate : Option Nat := none
  deriving DecidableEq, Repr

/-- Ring-buffer insertion: the source inlines it as
`[message.data, ...prev].slice(0, 50)`; `cap` is the capacity (50 in the
source, see `mentionCap`). -/
def ringInsert (cap : Nat) (e : α) (buf : List α) : List α :=
  (e :: buf).take cap

/-- Capacity of the realtime-mention list: the literal `50` in
`slice(0, 50)` ("Keep last 50"). -/
def mentionCap : Nat := 50

/-- Translation of `handleMessage` from websocket-context.tsx: the
`switch (message.type)` over `new_mention`, `sentiment_update`,
`stats_update`, `notification`, `error` and a logging `default`.  Each
data-bearing case is guarded by JS truthiness `if (message.data)`,
modelled by `Option`. -/
def handleMessage (now : Nat) (msg : WSMessage α) (st : StoreState α) : StoreState α :=
  if msg.type = "new_mention" then
    match msg.data with
    | some e =>
        { st with realtimeMentions := ringInsert mentionCap e st.realtimeMentions,
                  lastUpdate := some now }
    | none => st
  else if msg.type = "sentiment_update" then
    match msg.data with
    | some _ => { st with lastUpdate := some now }
    | none => st
  else if msg.type = "stats_update" then
    match msg.data with
    | some d => { st with dashboardStats := some d, lastUpdate := some now }
    | none => st
  else if msg.type = "notification" then
    st
  else if msg.type = "error" then
    st
  else
    st

/-- Hook option default `maxReconnectAttempts = 5` (the provider passes no
override). -/
def maxReconnectAttempts : Nat := 5

/-- Hook option default `reconnectInterval = 3000` milliseconds. -/
def reconnectIntervalMs : Nat := 3000

/-- Whole-client state: the hook's refs and state cells plus the
provider's store, plus the bookkeeping needed to observe the claims
(wire transcript `sent`, `warnings` for `console.warn`, callback
counters). `wsRef` is an index into `sockets`, the list of every
`WebSocket` the hook has constructed, in creation order.  Reconnect
timers are kept in `reconnectTimers` (one entry per `setTimeout` issued
by the close handler, `true` while still armed) because the source
overwrites `reconnectTimeoutRef.current` without `clearTimeout`, so an
earlier timer can stay armed while the ref forgets its handle;
`reconnectTimeoutRef` is the handle the ref currently holds. -/
structure ClientState (α : Type) where
  status : ConnectionStatus := .disconnected
  wsRef : Option Nat := none
  sockets : List Socket := []
  reconnectAttempts : Nat := 0
  reconnectTimers : List Bool := []
  reconnectTimeoutRef : Option Nat := none
  heartbeatOn : Bool := false
  token : Option String := none
  sent : List OutMessage := []
  warnings : Nat := 0
  lastMessage : Option (WSMessage α) := none
  store : StoreState α := {}
  connectCbCount : Nat := 0
  disconnectCbCount : Nat := 0
  deriving DecidableEq, Repr

/-- Replace the socket at index `i` (used for readyState transitions). -/
def setSocket (i : Nat) (f : Socket → Socket) : List Socket → List Socket
  | [] => []
  | sk :: rest =>
    match i with
    | 0 => f sk :: rest
    | n + 1 => sk :: setSocket n f rest

/-- The `wsRef.current?.readyState` expression: the ready state of the
socket currently held by the ref, if any. -/
def readyStateOf (s : ClientState α) : Option ReadyState :=
  s.wsRef.bind fun i => (s.sockets[i]?).map Socket.readyState

/-- Translation of `sendMessage`: transmit iff
`wsRef.current?.readyState === WebSocket.OPEN`, else `console.warn` and
do nothing.  Serialization (`JSON.stringify`) is modelled by recording
the `OutMessage` itself on the wire transcript. -/
def sendMessage (m : OutMessage) (s : ClientState α) : ClientState α :=
  if readyStateOf s = some .opened then
    { s with sent := s.sent ++ [m] }
  else
    { s with warnings := s.warnings + 1 }

/-- Translation of `subscribeToBrand`: a plain
`sendMessage({type: 'subscribe', brand_id})`. -/
def subscribeToBrand (brandId : Nat) (s : ClientState α) : ClientState α :=
  sendMessage { type := "subscribe", brand_id := some brandId } s

/-- Translation of `unsubscribeFromBrand`. -/
def unsubscribeFromBrand (brandId : Nat) (s : ClientState α) : ClientState α :=
  sendMessage { type := "unsubscribe", brand_id := some brandId } s

/-- Translation of `startHeartbeat`: clears any existing interval and arms
a fresh one (net effect on the model: the interval is armed). -/
def startHeartbeat (s : ClientState α) : ClientState α :=
  { s with heartbeatOn := true }

/-- Translation of `stopHeartbeat`: clears the interval if armed. -/
def stopHeartbeat (s : ClientState α) : ClientState α :=
  { s with heartbeatOn := false }

/-- Translation of `connect`: error out if `tokenManager.get()` yields
nothing; warn and return if the ref's socket is already `OPEN`; otherwise
set `CONNECTING` and construct a fresh `WebSocket`, repointing `wsRef`
at it.  Note the source never closes a previously created socket here. -/
def connect (s : ClientState α) : ClientState α :=
  match s.token with
  | none => { s with status := .error }
  | some _ =>
    if readyStateOf s = some .opened then
      { s with warnings := s.warnings + 1 }
    else
      { s with status := .connecting,
               wsRef := some s.sockets.length,
               sockets := s.sockets ++ [{}] }

/-- Body of `ws.onopen`: set `CONNECTED`, zero the attempt counter, start
the heartbeat, invoke the `onConnect` callback. -/
def onopen (s : ClientState α) : ClientState α :=
  let s1 := { s with status := ConnectionStatus.connected }
  let s2 := { s1 with reconnectAttempts := 0 }
  let s3 := startHeartbeat s2
  { s3 with connectCbCount := s3.connectCbCount + 1 }

/-- Body of `ws.onmessage`: `raw` is the outcome of
`JSON.parse(event.data)` (`none` = the parse threw; the catch block only
logs).  On success the parsed message is stored in `lastMessage`; a
`connection`/`connected` ack and a `pong` are consumed with a log;
everything else is forwarded to the provider's `handleMessage`. -/
def onmessage (raw : Option (WSMessage α)) (now : Nat) (s : ClientState α) : ClientState α :=
  match raw with
  | none => s
  | some msg =>
    let s1 := { s with lastMessage := some msg }
    if msg.type = "connection" ∧ msg.status = some "connected" then
      s1
    else if msg.type = "pong" then
      s1
    else
      { s1 with store := handleMessage now msg s1.store }

/-- Body of `ws.onclose`: set `DISCONNECTED`, stop the heartbeat, invoke
`onDisconnect`; then, if the close code is not `1000` and the attempt
counter is below the maximum, set `RECONNECTING`, bump the counter and
arm a fresh reconnect timeout — the source assigns
`reconnectTimeoutRef.current = setTimeout(...)` without clearing the
previous one, so an earlier armed timer leaks; else if the counter has
reached the maximum, set `ERROR`. -/
def onclose (code : Nat) (s : ClientState α) : ClientState α :=
  let s1 := { s with status := ConnectionStatus.disconnected }
  let s2 := stopHeartbeat s1
  let s3 := { s2 with disconnectCbCount := s2.disconnectCbCount + 1 }
  if code ≠ 1000 ∧ s3.reconnectAttempts < maxReconnectAttempts then
    { s3 with status := .reconnecting,
              reconnectAttempts := s3.reconnectAttempts + 1,
              reconnectTimers := s3.reconnectTimers ++ [true],
              reconnectTimeoutRef := some s3.reconnectTimers.length }
  else if maxReconnectAttempts ≤ s3.reconnectAttempts then
    { s3 with status := .error }
  else
    s3

/-- Effect of `ws.close(code)` on one socket.  On an `OPEN` socket the
closing handshake starts and the eventual close event carries the
requested code.  On a socket still `CONNECTING`, per the WebSocket
standard `close()` fails the not-yet-established connection and the
close event reports the abnormal-closure code 1006, discarding the
requested code.  On a closing or closed socket `close` is a no-op. -/
def closeWith (code : Nat) (sk : Socket) : Socket :=
  match sk.readyState with
  | .connecting => { sk with readyState := .closing, pendingCloseCode := some 1006 }
  | .opened => { sk with readyState := .closing, pendingCloseCode := some code }
  | _ => sk

/-- Disarm the timer with handle `j`: a `clearTimeout`, which is a no-op
on a timer that has already fired. -/
def disarmTimer (j : Nat) : List Bool → List Bool
  | [] => []
  | b :: rest =>
    match j with
    | 0 => false :: rest
    | n + 1 => b :: disarmTimer n rest

/-- The `if (reconnectTimeoutRef.current)` prologue of `disconnect`:
`clearTimeout` the handle the ref currently holds and null the ref.
A timer whose handle was overwritten by a later `setTimeout` is out of
reach and stays armed. -/
def clearReconnectTimeout (s : ClientState α) : ClientState α :=
  match s.reconnectTimeoutRef with
  | some j => { s with reconnectTimers := disarmTimer j s.reconnectTimers,
                       reconnectTimeoutRef := none }
  | none => s

/-- Translation of `disconnect`: clear the currently referenced reconnect
timeout, stop the heartbeat, `close(1000)` the ref's socket and null the
ref, set `DISCONNECTED` and zero the attempt counter. -/
def disconnect (s : ClientState α) : ClientState α :=
  let s1 := clearReconnectTimeout s
  let s2 := stopHeartbeat s1
  let s3 :=
    match s2.wsRef with
    | some i => { s2 with sockets := setSocket i (closeWith 1000) s2.sockets, wsRef := none }
    | none => s2
  { s3 with status := ConnectionStatus.disconnected, reconnectAttempts := 0 }

/-- Happenings of the single-threaded event loop: the public API calls,
the transport events (addressed to a socket by creation index, since the
browser keeps firing handlers of sockets the ref no longer holds), the
reconnect timeout and the heartbeat interval. -/
inductive Event (α : Type) where
  | connectCall
  | disconnectCall
  | sendCall (m : OutMessage)
  | subscribeCall (brandId : Nat)
  | unsubscribeCall (brandId : Nat)
  | openEvt (i : Nat)
  | messageEvt (i : Nat) (raw : Option (WSMessage α)) (now : Nat)
  | closeEvt (i : Nat) (code : Nat)
  | timerFire (j : Nat)
  | heartbeatTick

/-- Whether a close event with this code can be delivered for this
socket: never for an already-closed socket; for a socket closed by
`close(c)` only with that requested code; for a connecting or open
socket with any code (peer- or network-initiated closure). -/
def closeDeliverable (sk : Socket) (code : Nat) : Bool :=
  match sk.readyState with
  | .closed => false
  | .closing => sk.pendingCloseCode == some code
  | _ => true

/-- One step of the event loop.  Transport events addressed to an absent
socket or not deliverable in its current ready state leave the state
unchanged; the timers only fire while armed. -/
def step (e : Event α) (s : ClientState α) : ClientState α :=
  match e with
  | .connectCall => connect s
  | .disconnectCall => disconnect s
  | .sendCall m => sendMessage m s
  | .subscribeCall b => subscribeToBrand b s
  | .unsubscribeCall b => unsubscribeFromBrand b s
  | .openEvt i =>
    match s.sockets[i]? with
    | some sk =>
      if sk.readyState = .connecting then
        onopen { s with sockets := setSocket i (fun k => { k with readyState := .opened }) s.sockets }
      else s
    | none => s
  | .messageEvt i raw now =>
    match s.sockets[i]? with
    | some sk => if sk.readyState = .opened then onmessage raw now s else s
    | none => s
  | .closeEvt i code =>
    match s.sockets[i]? with
    | some sk =>
      if closeDeliverable sk code then
        onclose code { s with sockets := setSocket i (fun k => { k with readyState := .closed }) s.sockets }
      else s
    | none => s
  | .timerFire j =>
    match s.reconnectTimers[j]? with
    | some true => connect { s with reconnectTimers := disarmTimer j s.reconnectTimers }
    | _ => s
  | .heartbeatTick =>
    if s.heartbeatOn then sendMessage { type := "ping" } s else s

/-- Run a list of events, oldest first. -/
def run (es : List (Event α)) (s : ClientState α) : ClientState α :=
  es.foldl (fun acc e => step e acc) s

/-- State when the hook mounts: `DISCONNECTED`, empty refs and store;
`token` is what `tokenManager.get()` will return. -/
def initialState (token : Option String) : ClientState α :=
  { token := token }

/-- Number of sockets of this client currently in the `OPEN` ready
state. -/
def openTransportCount (s : ClientState α) : Nat :=
  (s.sockets.filter fun sk => sk.readyState == ReadyState.opened).length

/-- Number of `subscribe` messages for the given brand on the wire
transcript. -/
def subscribeCount (brandId : Nat) (l : List OutMessage) : Nat :=
  (l.filter fun m => m.type == "subscribe" && m.brand_id == some brandId).length

/-- Mounted client with a token available. -/
def initTok : ClientState Unit :=
  initialState (some "tok")

/-- Five consecutive abnormal closes (code 1006) with no successful open
between them: the initial `connect`, then each armed reconnect timeout
firing and the resulting socket closing abnormally again. -/
def fiveAbnormalCloses : List (Event Unit) :=
  [.connectCall, .closeEvt 0 1006, .timerFire 0, .closeEvt 1 1006, .timerFire 1,
   .closeEvt 2 1006, .timerFire 2, .closeEvt 3 1006, .timerFire 3, .closeEvt 4 1006]

/-- The same run continued by one more scheduled reconnect and a sixth
abnormal close. -/
def sixAbnormalCloses : List (Event Unit) :=
  fiveAbnormalCloses ++ [.timerFire 4, .closeEvt 5 1006]

/-- Two `connect()` calls before the first socket has opened, then both
sockets open (the browser still delivers the first socket's events:
the code never closed it). -/
def overlappingConnects : List (Event Unit) :=
  [.connectCall, .connectCall, .openEvt 0, .openEvt 1]

/-- Two overlapping `connect()` calls where the second socket opens and
the first, stale socket then fails: its close handler runs the reconnect
logic even though the second socket is open. -/
def staleSocketTrace : List (Event Unit) :=
  [.connectCall, .connectCall, .openEvt 1, .closeEvt 0 1006]

/-- A probe message used to observe whether `sendMessage` transmits. -/
def probeMsg : OutMessage :=
  { type := "subscribe", brand_id := some 7 }

/-- Call `subscribe(42)` while `Disconnected`, then `connect()` and a
successful open. -/
def subscribeWhileDisconnected : List (Event Unit) :=
  [.subscribeCall 42, .connectCall, .openEvt 0]

/-- A client that connected and whose socket opened. -/
def connectedState : ClientState Unit :=
  run [.connectCall, .openEvt 0] initTok

/-- Number of reconnect timers currently armed (issued by the close
handler, neither fired nor cancelled). -/
def armedReconnectTimers (s : ClientState α) : Nat :=
  s.reconnectTimers.count true

/-- `connect()` immediately followed by `disconnect()`. -/
def connectThenDisconnect : List (Event Unit) :=
  [.connectCall, .disconnectCall]

/-- `disconnect()` while the socket is still `CONNECTING`, then the close
event this triggers: per the WebSocket standard it carries 1006, not the
requested 1000. -/
def disconnectWhileConnecting : List (Event Unit) :=
  [.connectCall, .disconnectCall, .closeEvt 0 1006]

/-- Two overlapping connection attempts whose sockets both close
abnormally — the second `setTimeout` overwrites the timer ref without
clearing the first timer — then `disconnect()`, which can cancel only
the second timer. -/
def leakedTimerTrace : List (Event Unit) :=
  [.connectCall, .connectCall, .closeEvt 0 1006, .closeEvt 1 1006, .disconnectCall]

/-- The same run after the leaked first timer fires. -/
def leakedTimerFired : List (Event Unit) :=
  leakedTimerTrace ++ [.timerFire 0]

end BrandPulse

namespace BrandPulse

/-- Taking `cap` of an append is unaffected by pre-truncating the right
part to at least `cap` elements. -/
theorem take_append_take_of_le (l t : List α) : ∀ cap m : Nat, cap ≤ m →
    (l ++ t.take m).take cap = (l ++ t).take cap := by
  induction l with
  | nil =>
    intro cap m h
    simp [List.take_take, Nat.min_eq_left h]
  | cons x xs ih =>
    intro cap m h
    cases cap with
    | zero => simp
    | succ n =>
      simp only [List.cons_append, List.take_succ_cons]
      rw [ih n m (Nat.le_trans (Nat.le_succ n) h)]

/-- Taking `cap` of an append whose left part has at least `cap`
elements ignores the right part. -/
theorem take_append_left_long (l t : List α) (cap : Nat) (h : cap ≤ l.length) :
    (l ++ t).take cap = l.take cap := by
  rw [List.take_append_eq_append_take, Nat.sub_eq_zero_of_le h]
  simp

/-- Folding `ringInsert cap` over a nonempty list of arrivals yields the
first `cap` elements of (arrivals reversed, then the old buffer). -/
theorem foldl_ringInsert (cap : Nat) :
    ∀ es buf : List α, es ≠ [] →
      es.foldl (fun b e => ringInsert cap e b) buf = (es.reverse ++ buf).take cap := by
  intro es
  induction es with
  | nil => intro buf h; exact absurd rfl h
  | cons e es ih =>
    intro buf _
    cases es with
    | nil => simp [ringInsert]
    | cons f fs =>
      rw [List.foldl_cons, ih (ringInsert cap e buf) (by simp)]
      show ((f :: fs).reverse ++ ringInsert cap e buf).take cap = _
      rw [ringInsert, take_append_take_of_le _ _ cap cap (Nat.le_refl cap)]
      simp

/-- Reading back the updated index after `setSocket`. -/
theorem setSocket_get_self (f : Socket → Socket) :
    ∀ (l : List Socket) (i : Nat), (setSocket i f l)[i]? = l[i]?.map f := by
  intro l
  induction l with
  | nil => intro i; simp [setSocket]
  | cons sk rest ih =>
    intro i
    cases i with
    | zero => simp [setSocket]
    | succ n => simpa [setSocket] using ih n

/-- C3: folding the source's ring-buffer insertion
(`[message.data, ...prev].slice(0, cap)`, `cap = 50` in `handleMessage`)
over more arrivals than the capacity leaves exactly the last `cap`
arrivals, newest first; the length is then exactly `cap`, a single
insertion never yields more than `cap` elements, and with capacity 3 the
arrivals `e1, e2, e3, e4` leave `[e4, e3, e2]`. -/
theorem ringBuffer_keeps_last_cap (cap : Nat) (es buf : List α) (now : Nat) (e : α)
    (st : StoreState α) (e1 e2 e3 e4 : α) (hlen : cap < es.length) :
    handleMessage now { type := "new_mention", data := some e } st
        = { st with realtimeMentions := ringInsert mentionCap e st.realtimeMentions,
                    lastUpdate := some now }
      ∧ es.foldl (fun b x => ringInsert cap x b) buf = es.reverse.take cap
      ∧ (es.foldl (fun b x => ringInsert cap x b) buf).length = cap
      ∧ [e1, e2, e3, e4].foldl (fun b x => ringInsert 3 x b) ([] : List α) = [e4, e3, e2]
      ∧ (ringInsert cap e buf).length ≤ cap := by
  have hne : es ≠ [] := by
    intro h
    rw [h] at hlen
    exact Nat.not_lt_zero cap hlen
  have hfold : es.foldl (fun b x => ringInsert cap x b) buf = es.reverse.take cap := by
    rw [foldl_ringInsert cap es buf hne,
      take_append_left_long _ _ _ (by simpa using Nat.le_of_lt hlen)]
  refine ⟨by simp [handleMessage], hfold, ?_, by simp [ringInsert], ?_⟩
  · rw [hfold]
    simp [Nat.min_eq_left (Nat.le_of_lt hlen)]
  · simp only [ringInsert, List.length_take]
    exact Nat.min_le_left _ _

/-- C3 witness: capacity 3, arrivals 1,2,3,4 into an empty buffer. -/
theorem ringBuffer_keeps_last_cap_witness :
    ([1, 2, 3, 4] : List Nat).foldl (fun b x => ringInsert 3 x b) []
      = ([1, 2, 3, 4] : List Nat).reverse.take 3 :=
  (ringBuffer_keeps_last_cap 3 [1, 2, 3, 4] [] 0 0 {} 1 2 3 4 (by decide)).2.1

/-- C10: a `new_mention` or `stats_update` message whose `data` field is
absent (JS-falsy) leaves the provider store — mention list, dashboard
stats and last-update timestamp — unchanged. -/
theorem store_skips_absent_data (now : Nat) (msg : WSMessage α) (st : StoreState α)
    (hd : msg.data = none) (ht : msg.type = "new_mention" ∨ msg.type = "stats_update") :
    handleMessage now msg st = st := by
  rcases ht with h | h <;> simp [handleMessage, h, hd]

/-- C10 witness: a dataless `new_mention` on an empty store. -/
theorem store_skips_absent_data_witness :
    handleMessage 0 ({ type := "new_mention" } : WSMessage Nat) {} = {} :=
  store_skips_absent_data 0 _ _ rfl (Or.inl rfl)

/-- C4: `connect()` with no authentication token available goes straight
to the terminal error state (`ERROR`, the spec's `Failed`) and changes
nothing else — in particular no socket is constructed; being a total
function, it returns rather than throwing. -/
theorem connect_without_token_fails (s : ClientState α) (h : s.token = none) :
    connect s = { s with status := ConnectionStatus.error } := by
  simp [connect, h]

/-- C4 witness: a freshly mounted client with no token. -/
theorem connect_without_token_fails_witness :
    connect (initialState none : ClientState Unit)
      = { (initialState none : ClientState Unit) with status := ConnectionStatus.error } :=
  connect_without_token_fails _ rfl

/-- C9: delivering the open event of a connecting socket always leaves
the client `CONNECTED` with the retry-attempt counter reset to 0, the
heartbeat armed, and the registered on-connect callback invoked once
more — whatever the counter held before. -/
theorem open_resets_attempts_and_connects (s : ClientState α) (i : Nat) (sk : Socket)
    (hget : s.sockets[i]? = some sk) (hrs : sk.readyState = ReadyState.connecting) :
    (step (Event.openEvt i) s).status = ConnectionStatus.connected
      ∧ (step (Event.openEvt i) s).reconnectAttempts = 0
      ∧ (step (Event.openEvt i) s).heartbeatOn = true
      ∧ (step (Event.openEvt i) s).connectCbCount = s.connectCbCount + 1 := by
  simp [step, hget, hrs, onopen, startHeartbeat]

/-- C9 witness: the socket created by a first `connect()`, with the
attempt counter at its initial value. -/
theorem open_resets_attempts_and_connects_witness :
    (step (Event.openEvt 0) (run [Event.connectCall] initTok)).status
      = ConnectionStatus.connected :=
  (open_resets_attempts_and_connects (run [Event.connectCall] initTok) 0 {} (by decide) rfl).1

/-- C7: inbound dispatch never leaks an exception (it is a total state
function); an undecodable frame (`JSON.parse` threw, caught and logged)
leaves the state entirely unchanged, and a decodable frame with an
unknown type tag leaves the connection state, the provider store (ring
buffer, stats, last update) and the wire transcript unchanged. -/
theorem router_ignores_bad_and_unknown (i now : Nat) (s : ClientState α) (msg : WSMessage α)
    (hunk : msg.type ∉ (["connection", "pong", "new_mention", "sentiment_update",
        "stats_update", "notification", "error"] : List String)) :
    step (Event.messageEvt i none now) s = s
      ∧ (step (Event.messageEvt i (some msg) now) s).status = s.status
      ∧ (step (Event.messageEvt i (some msg) now) s).store = s.store
      ∧ (step (Event.messageEvt i (some msg) now) s).sent = s.sent := by
  simp only [List.mem_cons, List.mem_singleton, not_or] at hunk
  obtain ⟨h1, h2, h3, h4, h5, h6, h7, -⟩ := hunk
  refine ⟨?_, ?_⟩
  · cases hg : s.sockets[i]? with
    | none => simp [step, hg]
    | some sk =>
      cases hr : sk.readyState <;> simp [step, hg, hr, onmessage]
  · cases hg : s.sockets[i]? with
    | none => simp [step, hg]
    | some sk =>
      cases hr : sk.readyState <;>
        simp [step, hg, hr, onmessage, handleMessage, h1, h2, h3, h4, h5, h6, h7]

/-- C7 witness: an unknown tag `mystery` delivered to a fresh client. -/
theorem router_ignores_bad_and_unknown_witness :
    step (Event.messageEvt 0 none 0) initTok = initTok :=
  (router_ignores_bad_and_unknown 0 0 initTok { type := "mystery" } (by decide)).1

/-- C8 counterexample: after two overlapping `connect()` calls, the
second socket opens and the stale first socket then closes abnormally,
so the state is `RECONNECTING` — yet `sendMessage` transmits, because
its guard is the ref'd socket's `readyState`, not the connection
state.  This falsifies "for every connection state other than Connected,
send does not transmit" on a concrete run. -/
theorem send_transmits_while_reconnecting :
    (run staleSocketTrace initTok).status = ConnectionStatus.reconnecting
      ∧ (run staleSocketTrace initTok).sent = []
      ∧ (step (Event.sendCall probeMsg) (run staleSocketTrace initTok)).sent = [probeMsg] := by
  decide

/-- C8 (amended): `sendMessage` is guarded by the current socket's ready
state: it serializes and transmits exactly when the ref'd socket is
`OPEN`, and otherwise only emits a warning, never throwing; the `OPEN`
guard coincides with `Connected` in single-connection operation but not
on overlapping-connect runs. -/
theorem sendMessage_guarded_by_readyState (m : OutMessage) (s : ClientState α) :
    step (Event.sendCall m) s
      = if readyStateOf s = some ReadyState.opened
          then { s with sent := s.sent ++ [m] }
          else { s with warnings := s.warnings + 1 } := by
  rfl

/-- C2 counterexample: `subscribe(42)` while `Disconnected`, then a
successful `connect()` and open — yet the wire transcript is empty
(zero `Subscribe` messages for topic 42, not exactly one), because
`subscribeToBrand` only warned and dropped the message and the open
handler replays nothing. -/
theorem no_subscribe_replay_after_connect :
    (run subscribeWhileDisconnected initTok).status = ConnectionStatus.connected
      ∧ subscribeCount 42 (run subscribeWhileDisconnected initTok).sent = 0
      ∧ (run subscribeWhileDisconnected initTok).sent = []
      ∧ (run subscribeWhileDisconnected initTok).warnings = 1 := by
  decide

/-- C2 (amended): `subscribe(topicId)` while the ref's socket is not open
only emits a warning — the topic is not queued — and the open handler
never sends anything, so no `Subscribe` is replayed on a later successful
connect; callers must re-subscribe themselves once connected. -/
theorem subscribe_disconnected_dropped (s : ClientState α) (b i : Nat)
    (h : readyStateOf s ≠ some ReadyState.opened) :
    step (Event.subscribeCall b) s = { s with warnings := s.warnings + 1 }
      ∧ (step (Event.openEvt i) s).sent = s.sent := by
  refine ⟨by simp [step, subscribeToBrand, sendMessage, h], ?_⟩
  cases hg : s.sockets[i]? with
  | none => simp [step, hg]
  | some sk => cases hr : sk.readyState <;> simp [step, hg, hr, onopen, startHeartbeat]

/-- C2 witness: dropping `subscribe(42)` on a freshly mounted client. -/
theorem subscribe_disconnected_dropped_witness :
    step (Event.subscribeCall 42) initTok = { initTok with warnings := initTok.warnings + 1 } :=
  (subscribe_disconnected_dropped initTok 42 0 (by decide)).1

/-- C6 counterexample: calling `connect()` again while the first socket
is still `CONNECTING` passes the `readyState === OPEN` guard and
constructs a second `WebSocket` without closing the first; once both
open, two live transports coexist — falsifying "at most one live
transport at any time". -/
theorem two_open_transports_reachable :
    openTransportCount (run overlappingConnects initTok) = 2
      ∧ (run overlappingConnects initTok).status = ConnectionStatus.connected := by
  decide

/-- C6 (amended): while a token is available and the ref'd socket is
`OPEN`, `connect()` is a no-op apart from a `console.warn`; the at-most-
one-live-transport invariant, however, does not hold, because `connect()`
during an in-flight connection attempt creates a second socket and never
closes the first. -/
theorem connect_noop_when_open (s : ClientState α) (t : String)
    (htok : s.token = some t) (hrs : readyStateOf s = some ReadyState.opened) :
    connect s = { s with warnings := s.warnings + 1 } := by
  simp [connect, htok, hrs]

/-- C6 witness: a second `connect()` on an open connection. -/
theorem connect_noop_when_open_witness :
    connect connectedState = { connectedState with warnings := connectedState.warnings + 1 } :=
  connect_noop_when_open connectedState "tok" rfl (by decide)

/-- C1 counterexample: with the default `maxReconnectAttempts = 5`, after
5 consecutive abnormal closes (code 1006) with no successful open in
between, the state is `RECONNECTING` — not the terminal error state —
and a further reconnect is scheduled (the timeout is armed and the
counter stands at 5). -/
theorem fifth_abnormal_close_still_reconnecting :
    (run fiveAbnormalCloses initTok).status = ConnectionStatus.reconnecting
      ∧ (run fiveAbnormalCloses initTok).status ≠ ConnectionStatus.error
      ∧ armedReconnectTimers (run fiveAbnormalCloses initTok) = 1
      ∧ (run fiveAbnormalCloses initTok).reconnectAttempts = 5 := by
  decide

/-- C1 (amended): an abnormal close observed with the attempt counter
already at the maximum yields the terminal error state and arms no
reconnect, while one observed below the maximum yields `RECONNECTING`
with the counter bumped and a reconnect armed; hence the terminal state
is reached on the 6th consecutive abnormal close (after all 5 scheduled
reconnect attempts have failed), as the concrete run shows. -/
theorem abnormal_close_exhaustion (s : ClientState α) (c : Nat) (hc : c ≠ 1000) :
    (maxReconnectAttempts ≤ s.reconnectAttempts →
        (onclose c s).status = ConnectionStatus.error
          ∧ (onclose c s).reconnectTimers = s.reconnectTimers)
      ∧ (s.reconnectAttempts < maxReconnectAttempts →
          (onclose c s).status = ConnectionStatus.reconnecting
            ∧ (onclose c s).reconnectAttempts = s.reconnectAttempts + 1
            ∧ (onclose c s).reconnectTimers = s.reconnectTimers ++ [true])
      ∧ ((run sixAbnormalCloses initTok).status = ConnectionStatus.error
          ∧ armedReconnectTimers (run sixAbnormalCloses initTok) = 0
          ∧ (run sixAbnormalCloses initTok).reconnectAttempts = 5) := by
  refine ⟨?_, ?_, by decide⟩
  · intro hge
    have hlt : ¬ s.reconnectAttempts < maxReconnectAttempts := Nat.not_lt.mpr hge
    simp [onclose, stopHeartbeat, hlt, hge]
  · intro hlt
    simp [onclose, stopHeartbeat, hc, hlt]

/-- C1 witness: a 6th abnormal close with the counter at the maximum. -/
theorem abnormal_close_exhaustion_witness :
    (onclose 1006 ({ reconnectAttempts := 5 } : ClientState Unit)).status
      = ConnectionStatus.error :=
  ((abnormal_close_exhaustion ({ reconnectAttempts := 5 } : ClientState Unit) 1006
      (by decide)).1 (by decide)).1

/-- Reading back the disarmed index after `disarmTimer`. -/
theorem disarmTimer_get_self :
    ∀ (l : List Bool) (j : Nat), j < l.length → (disarmTimer j l)[j]? = some false := by
  intro l
  induction l with
  | nil => intro j h; simp at h
  | cons b rest ih =>
    intro j h
    cases j with
    | zero => simp [disarmTimer]
    | succ n => simpa [disarmTimer] using ih n (by simpa using h)

/-- A timer list with no armed entry has no index reading `true`. -/
theorem count_true_zero_no_armed :
    ∀ (l : List Bool) (k : Nat), l.count true = 0 → l[k]? ≠ some true := by
  intro l
  induction l with
  | nil => intro k h; simp
  | cons b rest ih =>
    intro k h
    cases b with
    | false =>
      cases k with
      | zero => simp
      | succ n =>
        have hrest : rest.count true = 0 := by simpa [List.count_cons] using h
        simpa using ih n hrest
    | true => simp [List.count_cons] at h

/-- C5 counterexample: `disconnect()` does not keep the state
`Disconnected` past a backoff interval.  First run: `disconnect()` while
the socket is still `CONNECTING` — `close(1000)` fails the handshake, so
the close event it triggers carries 1006 and its handler schedules a
spurious reconnect: the state ends `RECONNECTING` with a timer armed.
Second run: after two overlapping abnormal closes the second
`setTimeout` overwrote the timer ref without clearing the first, so
`disconnect()` cancels only the second; the leaked timer stays armed,
survives `disconnect()`, and when it fires it calls `connect()`, leaving
`Disconnected` for `CONNECTING`. -/
theorem disconnect_not_quiescent :
    (run connectThenDisconnect initTok).status = ConnectionStatus.disconnected
      ∧ (run disconnectWhileConnecting initTok).status = ConnectionStatus.reconnecting
      ∧ armedReconnectTimers (run disconnectWhileConnecting initTok) = 1
      ∧ (run leakedTimerTrace initTok).status = ConnectionStatus.disconnected
      ∧ armedReconnectTimers (run leakedTimerTrace initTok) = 1
      ∧ (run leakedTimerFired initTok).status = ConnectionStatus.connecting := by
  decide

/-- C5 (amended): `disconnect()` stops the heartbeat, zeroes the attempt
counter, nulls the timeout ref and disarms the reconnect timer the ref
currently holds (a timer leaked by the close handler overwriting the ref
survives), and transitions to `Disconnected`.  When the transport was
`OPEN`, it enters the closing handshake with the normal-closure code
1000; the close event this triggers can only carry 1000, leaves the
state `Disconnected` and arms no reconnect, and if no leaked timer is
still armed the timer machinery does nothing, so the state remains
`Disconnected` past any backoff interval.  (For a transport still
`CONNECTING` the triggered close instead carries 1006 and schedules a
spurious reconnect — see the counterexample.) -/
theorem disconnect_open_transport_quiescent (s : ClientState α) (i j k c : Nat) (sk : Socket)
    (href : s.wsRef = some i) (hget : s.sockets[i]? = some sk)
    (hrs : sk.readyState = ReadyState.opened) :
    (disconnect s).status = ConnectionStatus.disconnected
      ∧ (disconnect s).heartbeatOn = false
      ∧ (disconnect s).reconnectAttempts = 0
      ∧ (disconnect s).reconnectTimeoutRef = none
      ∧ (s.reconnectTimeoutRef = some j → j < s.reconnectTimers.length →
          (disconnect s).reconnectTimers[j]? = some false)
      ∧ (disconnect s).sockets[i]?
          = some { sk with readyState := ReadyState.closing, pendingCloseCode := some 1000 }
      ∧ (step (Event.closeEvt i c) (disconnect s)).status = ConnectionStatus.disconnected
      ∧ (step (Event.closeEvt i c) (disconnect s)).reconnectTimers
          = (disconnect s).reconnectTimers
      ∧ (armedReconnectTimers (disconnect s) = 0 →
          step (Event.timerFire k) (disconnect s) = disconnect s) := by
  have hclose : closeWith 1000 sk
      = { sk with readyState := ReadyState.closing, pendingCloseCode := some 1000 } := by
    simp [closeWith, hrs]
  have hsock : (disconnect s).sockets[i]?
      = some { sk with readyState := ReadyState.closing, pendingCloseCode := some 1000 } := by
    cases htr : s.reconnectTimeoutRef <;>
      simp [disconnect, clearReconnectTimeout, stopHeartbeat, htr, href,
        setSocket_get_self, hget, hclose]
  have hstat : (disconnect s).status = ConnectionStatus.disconnected := by
    cases htr : s.reconnectTimeoutRef <;>
      simp [disconnect, clearReconnectTimeout, stopHeartbeat, htr, href]
  have hheart : (disconnect s).heartbeatOn = false := by
    cases htr : s.reconnectTimeoutRef <;>
      simp [disconnect, clearReconnectTimeout, stopHeartbeat, htr, href]
  have hatt : (disconnect s).reconnectAttempts = 0 := by
    cases htr : s.reconnectTimeoutRef <;>
      simp [disconnect, clearReconnectTimeout, stopHeartbeat, htr, href]
  have hnullref : (disconnect s).reconnectTimeoutRef = none := by
    cases htr : s.reconnectTimeoutRef <;>
      simp [disconnect, clearReconnectTimeout, stopHeartbeat, htr, href]
  have hdisarm : s.reconnectTimeoutRef = some j → j < s.reconnectTimers.length →
      (disconnect s).reconnectTimers[j]? = some false := by
    intro htr hlen
    have : (disconnect s).reconnectTimers = disarmTimer j s.reconnectTimers := by
      simp [disconnect, clearReconnectTimeout, stopHeartbeat, htr, href]
    rw [this]
    exact disarmTimer_get_self s.reconnectTimers j hlen
  have hstep :
      (step (Event.closeEvt i c) (disconnect s)).status = ConnectionStatus.disconnected
        ∧ (step (Event.closeEvt i c) (disconnect s)).reconnectTimers
            = (disconnect s).reconnectTimers := by
    by_cases hc : c = 1000
    · subst hc
      simp only [step, hsock, closeDeliverable]
      simp [onclose, stopHeartbeat, hstat, hatt, maxReconnectAttempts]
    · have hdel : closeDeliverable
          { sk with readyState := ReadyState.closing, pendingCloseCode := some 1000 } c
          = false := by
        simp [closeDeliverable, Ne.symm hc]
      simp [step, hsock, hdel, hstat]
  have htimer : armedReconnectTimers (disconnect s) = 0 →
      step (Event.timerFire k) (disconnect s) = disconnect s := by
    intro h0
    have hnk := count_true_zero_no_armed (disconnect s).reconnectTimers k h0
    cases hkv : (disconnect s).reconnectTimers[k]? with
    | none => simp [step, hkv]
    | some b =>
      cases b with
      | false => simp [step, hkv]
      | true => exact absurd hkv hnk
  exact ⟨hstat, hheart, hatt, hnullref, hdisarm, hsock, hstep.1, hstep.2, htimer⟩

/-- C5 witness: disconnecting the connected client and delivering the
triggered close event with code 1000. -/
theorem disconnect_open_transport_quiescent_witness :
    (disconnect connectedState).status = ConnectionStatus.disconnected :=
  (disconnect_open_transport_quiescent connectedState 0 0 0 1000
      { readyState := ReadyState.opened } rfl (by decide) rfl).1

end BrandPulse
